import Mathlib

/-!
Shallow embedding of the resilient Redis connection pool of
`crates/shared/src/redis/types.rs`, together with theorems checking the
natural-language specification against it.

Conventions of the embedding:
- Rust `u16`/`u32`/`u64`/`usize` fields are modelled as `Nat` (none of the
  verified claims exercises overflow of these fields).
- effectful driver primitives (connecting a pool, the subscribe command,
  joining a task) are modelled as explicit oracle parameters returning
  `Except`, and the externally visible actions of a function are returned
  as an explicit event trace.
- Pool and task handles are modelled as abstract `Nat` identifiers.
-/

namespace Redis

/-- Settings record, embedding `RedisSettings` (types.rs lines 41-60). -/
structure RedisSettings where
  host : String
  port : Nat
  cluster_enabled : Bool
  cluster_urls : List String
  use_legacy_version : Bool
  pool_size : Nat
  reconnect_max_attempts : Nat
  reconnect_delay : Nat
  default_ttl : Nat
  default_hash_ttl : Nat
  stream_read_count : Nat
  partition : Nat
  broadcast_channel_capacity : Nat
deriving DecidableEq

/-- Embedding of `impl Default for RedisSettings` (types.rs lines 62-80). -/
def RedisSettings.default : RedisSettings where
  host := "localhost"
  port := 6379
  cluster_enabled := false
  cluster_urls := []
  use_legacy_version := false
  pool_size := 10
  reconnect_max_attempts := 5
  reconnect_delay := 1000
  default_ttl := 3600
  default_hash_ttl := 3600
  stream_read_count := 100
  partition := 0
  broadcast_channel_capacity := 32

/-- Error enum of the redis module. The module file `redis/error.rs` is not
among the sources; the two variants used by `types.rs` are reconstructed from
their usage sites (`RedisConnectionError` carrying the driver error text,
`GetFailed` carrying a formatted message). -/
inductive RedisError
  | RedisConnectionError (msg : String)
  | GetFailed (msg : String)
deriving DecidableEq

/-- Wire protocol version of the driver configuration (`fred::types::RespVersion`). -/
inductive RespVersion
  | RESP2
  | RESP3
deriving DecidableEq

/-- Tracing part of the driver configuration (`fred::types::TracingConfig`). -/
structure TracingConfig where
  enabled : Bool
deriving DecidableEq

/-- Embedding of `fred::types::TracingConfig::new`. -/
def TracingConfig.new (enabled : Bool) : TracingConfig := ⟨enabled⟩

/-- Behaviour of blocking commands (`fred::types::Blocking`). -/
inductive Blocking
  | Block
  | Error
  | Interrupt
deriving DecidableEq

/-- Kind of a reconnect policy (`fred::types::ReconnectPolicy` variants). -/
inductive ReconnectKind
  | constant
  | linear
  | exponential
deriving DecidableEq

/-- Reconnect policy of the driver, keeping the parameters the code passes. -/
structure ReconnectPolicy where
  kind : ReconnectKind
  max_attempts : Nat
  delay : Nat
deriving DecidableEq

/-- Embedding of `fred::types::ReconnectPolicy::new_constant`. -/
def ReconnectPolicy.new_constant (max_attempts delay : Nat) : ReconnectPolicy :=
  ⟨ReconnectKind.constant, max_attempts, delay⟩

/-- The fields of the driver configuration (`fred::types::RedisConfig`) that
`types.rs` reads or writes. -/
structure RedisConfig where
  version : RespVersion
  tracing : TracingConfig
  blocking : Blocking
deriving DecidableEq

/-- Connection URL built by `RedisConnectionPool::instantiate`
(types.rs lines 216-233): the cluster branch joins the configured
`cluster_urls` through `flat_map` over the pair `&`, url followed by
`skip(1)`; the standalone branch formats host, port and partition. -/
def RedisConnectionPool.connection_url (conf : RedisSettings) : String :=
  match conf.cluster_enabled with
  | true =>
    "redis-cluster://" ++ conf.host ++ ":" ++ toString conf.port ++ "?" ++
      String.join ((conf.cluster_urls.flatMap (fun url => ["&", url])).drop 1)
  | false =>
    "redis://" ++ conf.host ++ ":" ++ toString conf.port ++ "/" ++ toString conf.partition

/-- Mutations `RedisConnectionPool::instantiate` applies to the configuration
parsed from the URL (types.rs lines 238-242): force RESP3 unless the legacy
flag is set, enable tracing, make blocking commands error. -/
def RedisConnectionPool.build_config (parsed : RedisConfig) (conf : RedisSettings) : RedisConfig :=
  let config := parsed
  let config := if !conf.use_legacy_version then { config with version := RespVersion.RESP3 } else config
  let config := { config with tracing := TracingConfig.new true }
  { config with blocking := Blocking.Error }

/-- Reconnect policy `RedisConnectionPool::instantiate` builds
(types.rs lines 243-246). -/
def RedisConnectionPool.reconnect_policy (conf : RedisSettings) : ReconnectPolicy :=
  ReconnectPolicy.new_constant conf.reconnect_max_attempts conf.reconnect_delay

/-- Connection URL built by `RedisClient::get_config`
(types.rs lines 140-157); textually the same computation as the one in
`RedisConnectionPool::instantiate`, embedded separately so the two copies can
be compared. -/
def RedisClient.connection_url (conf : RedisSettings) : String :=
  match conf.cluster_enabled with
  | true =>
    "redis-cluster://" ++ conf.host ++ ":" ++ toString conf.port ++ "?" ++
      String.join ((conf.cluster_urls.flatMap (fun url => ["&", url])).drop 1)
  | false =>
    "redis://" ++ conf.host ++ ":" ++ toString conf.port ++ "/" ++ toString conf.partition

/-- Configuration mutations of `RedisClient::get_config` (types.rs lines 162-166),
embedded separately from the pool copy. -/
def RedisClient.build_config (parsed : RedisConfig) (conf : RedisSettings) : RedisConfig :=
  let config := parsed
  let config := if !conf.use_legacy_version then { config with version := RespVersion.RESP3 } else config
  let config := { config with tracing := TracingConfig.new true }
  { config with blocking := Blocking.Error }

/-- Reconnect policy of `RedisClient::get_config` (types.rs lines 167-170). -/
def RedisClient.reconnect_policy (conf : RedisSettings) : ReconnectPolicy :=
  ReconnectPolicy.new_constant conf.reconnect_max_attempts conf.reconnect_delay

/-- Whole `RedisClient::get_config` (types.rs lines 137-173), the URL parser of
the driver passed as an oracle; a parse failure is mapped to
`RedisConnectionError` carrying the error text. -/
def RedisClient.get_config (parse : String → Except String RedisConfig)
    (conf : RedisSettings) : Except RedisError (RedisConfig × ReconnectPolicy) :=
  match parse (RedisClient.connection_url conf) with
  | .error e => .error (RedisError.RedisConnectionError e)
  | .ok cfg => .ok (RedisClient.build_config cfg conf, RedisClient.reconnect_policy conf)

/-- Configuration-building portion of `RedisConnectionPool::instantiate`
(types.rs lines 216-246), with the driver URL parser as an oracle. -/
def RedisConnectionPool.instantiate_config (parse : String → Except String RedisConfig)
    (conf : RedisSettings) : Except RedisError (RedisConfig × ReconnectPolicy) :=
  match parse (RedisConnectionPool.connection_url conf) with
  | .error e => .error (RedisError.RedisConnectionError e)
  | .ok cfg =>
    .ok (RedisConnectionPool.build_config cfg conf, RedisConnectionPool.reconnect_policy conf)

/-- Pool façade state, embedding the `RedisConnectionPool` struct
(types.rs lines 183-187): a reader pool, a writer pool (both abstract
identifiers) and the recorded background join handles. -/
structure RedisConnectionPool where
  reader_pool : Nat
  writer_pool : Nat
  join_handles : List Nat
deriving DecidableEq

/-- Externally visible actions of the pool façade, recorded as a trace so the
theorems can talk about which driver operations a function performs and in
which order. -/
inductive PoolEvent
  | instantiateCall
  | quitWriter
  | quitReader
  | awaitHandle (h : Nat)
  | logError (e : String)
deriving DecidableEq

/-- Embedding of `RedisConnectionPool::instantiate` at the granularity the
pool-construction claims need (types.rs lines 213-268): the effectful part
(pool creation, `connect_pool`, `wait_for_connect`) is the `connect` oracle,
whose failure text is wrapped in `RedisConnectionError`. -/
def RedisConnectionPool.instantiate
    (connect : RedisSettings → Except String (Nat × List Nat))
    (conf : RedisSettings) : Except RedisError (Nat × List Nat) :=
  match connect conf with
  | .error e => .error (RedisError.RedisConnectionError e)
  | .ok r => .ok r

/-- Embedding of `RedisConnectionPool::new` (types.rs lines 191-212): with
replica settings, instantiate the writer pool from `conf` and then the reader
pool from the replica settings; without, instantiate both from `conf`. Each
failure propagates immediately through the `?` operator. The second component
is the trace of externally visible actions the function performs. -/
def RedisConnectionPool.new
    (connect : RedisSettings → Except String (Nat × List Nat))
    (conf : RedisSettings) (replica_conf : Option RedisSettings) :
    Except RedisError RedisConnectionPool × List PoolEvent :=
  match replica_conf with
  | some replica =>
    match RedisConnectionPool.instantiate connect conf with
    | .error e => (.error e, [.instantiateCall])
    | .ok (writer_pool, join_handles) =>
      match RedisConnectionPool.instantiate connect replica with
      | .error e => (.error e, [.instantiateCall, .instantiateCall])
      | .ok (reader_pool, reader_join_handles) =>
        (.ok ⟨reader_pool, writer_pool, join_handles ++ reader_join_handles⟩,
         [.instantiateCall, .instantiateCall])
  | none =>
    match RedisConnectionPool.instantiate connect conf with
    | .error e => (.error e, [.instantiateCall])
    | .ok (writer_pool, join_handles) =>
      match RedisConnectionPool.instantiate connect conf with
      | .error e => (.error e, [.instantiateCall, .instantiateCall])
      | .ok (reader_pool, reader_join_handles) =>
        (.ok ⟨reader_pool, writer_pool, join_handles ++ reader_join_handles⟩,
         [.instantiateCall, .instantiateCall])

/-- Outcome of awaiting one background join handle: the Rust value is
`Result(Result(_, e1), e2)`, inspected in `close_connections`. -/
inductive JoinOutcome
  | okOk
  | okErr (e : String)
  | joinErr (e : String)
deriving DecidableEq

/-- Events of the handle-draining loop of `close_connections`
(types.rs lines 273-279): each handle is awaited, and either join-level
outcome carrying an error is logged. -/
def drainHandles (join : Nat → JoinOutcome) : List Nat → List PoolEvent
  | [] => []
  | h :: rest =>
    PoolEvent.awaitHandle h ::
      ((match join h with
        | .okOk => []
        | .okErr e => [PoolEvent.logError e]
        | .joinErr e => [PoolEvent.logError e]) ++ drainHandles join rest)

/-- Embedding of `RedisConnectionPool::close_connections`
(types.rs lines 270-280): quit the writer pool, quit the reader pool (results
discarded), then drain and await every recorded join handle, logging failures.
The join-handle list is emptied by `drain`. The function is total and returns
no error. -/
def RedisConnectionPool.close_connections (join : Nat → JoinOutcome)
    (s : RedisConnectionPool) : RedisConnectionPool × List PoolEvent :=
  ({ s with join_handles := [] },
   PoolEvent.quitWriter :: PoolEvent.quitReader :: drainHandles join s.join_handles)

/-- Payload shapes of a pub/sub message distinguished by the relay loop
(`fred::types::RedisValue` as matched in types.rs lines 312-335). -/
inductive RedisValue
  | String (s : String)
  | Null
  | Other
deriving DecidableEq

/-- A raw pub/sub message (`fred::types::Message`): channel name and payload. -/
structure Message where
  channel : String
  value : RedisValue
deriving DecidableEq

/-- One outcome of `message_stream.recv()` in the relay loop: the broadcast
receiver yields either a closed-stream error, a lagged error, or a message. -/
inductive RecvEvent
  | errClosed
  | errLagged (n : Nat)
  | msg (m : Message)
deriving DecidableEq

/-- Whether an iteration of the relay loop continues or breaks out. -/
inductive LoopControl
  | cont
  | brk
deriving DecidableEq

/-- Log lines the relay loop can emit, by failure kind
(types.rs lines 306-334). -/
inductive LogEntry
  | recvError
  | deserializationError (channel : String)
  | nullValue (channel : String)
  | unexpectedValue (channel : String)
  | sendFailed
deriving DecidableEq

/-- Result of one relay-loop iteration: whether the loop continues, the tuples
forwarded to the receive handle, and the log lines emitted. -/
structure StepOut (T : Type) where
  control : LoopControl
  forwarded : List (String × T × Nat)
  logs : List LogEntry
deriving DecidableEq

/-- One iteration of the typed relay loop spawned by
`RedisConnectionPool::subscribe_channel` (types.rs lines 302-339). `decode` is
the deserializer for the requested type, `txAlive` tells whether the consumer
still holds the receive handle (`tx.send` succeeds), `now` is the receipt
timestamp taken when the tuple is sent. A receive error is logged and the loop
continues; a string payload is decoded and forwarded on success or logged on
decode failure; null and other payload shapes are logged and dropped; a failed
send is logged. No branch breaks out of the loop. -/
def relayStep {T : Type} (decode : String → Option T) (txAlive : Bool)
    (e : RecvEvent) (now : Nat) : StepOut T :=
  match e with
  | .errClosed => ⟨.cont, [], [.recvError]⟩
  | .errLagged _ => ⟨.cont, [], [.recvError]⟩
  | .msg m =>
    match m.value with
    | .String s =>
      match decode s with
      | some parsed =>
        if txAlive then ⟨.cont, [(m.channel, parsed, now)], []⟩
        else ⟨.cont, [], [.sendFailed]⟩
      | none => ⟨.cont, [], [.deserializationError m.channel]⟩
    | .Null => ⟨.cont, [], [.nullValue m.channel]⟩
    | .Other => ⟨.cont, [], [.unexpectedValue m.channel]⟩

/-- The typed relay loop run over a finite prefix of the stream: each event is
paired with its receipt time, and the forwarded tuples are concatenated in
order. -/
def relayRun {T : Type} (decode : String → Option T) (txAlive : Bool) :
    List (RecvEvent × Nat) → List (String × T × Nat)
  | [] => []
  | (e, t) :: rest => (relayStep decode txAlive e t).forwarded ++ relayRun decode txAlive rest

/-- Error message formatted by both subscribe functions on a failed subscribe
command (types.rs lines 296-299 and 354-357). -/
def subscribeErrorMessage (channel e : String) : String :=
  "Failed to subscribe to channel \x27" ++ channel ++ "\x27: " ++ e

/-- Entry part of `RedisConnectionPool::subscribe_channel`
(types.rs lines 282-341): the subscribe command's outcome is the `subR`
oracle; on its failure the error is wrapped in `GetFailed` with the channel
name and the error text, and no relay task is spawned (second component
false); on success the receive handle (abstract identifier 0) is returned and
the relay task is spawned. -/
def RedisConnectionPool.subscribe_channel (subR : Except String Unit)
    (channel : String) : Except RedisError Nat × Bool :=
  match subR with
  | .error e => (.error (RedisError.GetFailed (subscribeErrorMessage channel e)), false)
  | .ok _ => (.ok 0, true)

/-- Entry part of `RedisConnectionPool::subscribe_channel_as_str`
(types.rs lines 343-391), identical to the typed variant up to the relay
payload. -/
def RedisConnectionPool.subscribe_channel_as_str (subR : Except String Unit)
    (channel : String) : Except RedisError Nat × Bool :=
  match subR with
  | .error e => (.error (RedisError.GetFailed (subscribeErrorMessage channel e)), false)
  | .ok _ => (.ok 0, true)

/-- Events observed by the error-monitoring task. -/
inductive MonitorEvent
  | errorSeen (e : String)
  | disconnectObserved
deriving DecidableEq

/-- Modelled from the spec: the availability-flag variant of the connection
pool (the availability flag and its error-monitor task of spec sections 3-4)
is absent from these sources, which contain only the broadcast-capacity
variant of the pool. Initial flag value at pool construction. -/
def availabilityInit : Bool := true

/-- Modelled from the spec: one step of the error-monitoring task. Observing
an error logs it and leaves the flag unchanged; observing the pools
disconnected stores false. No event stores true. -/
def availabilityStep (flag : Bool) (e : MonitorEvent) : Bool :=
  match e with
  | .errorSeen _ => flag
  | .disconnectObserved => false

/-- Modelled from the spec: the flag value read after the monitor has
processed a finite sequence of events, starting from construction. -/
def availabilityAfter (events : List MonitorEvent) : Bool :=
  events.foldl availabilityStep availabilityInit

/-- Concrete cluster settings with node list a, b, c, used to evaluate the
cluster branch of the endpoint resolver. -/
def clusterSettingsABC : RedisSettings :=
  { RedisSettings.default with
      cluster_enabled := true
      host := "h"
      port := 1
      cluster_urls := ["a", "b", "c"] }

lemma flatMap_amp_cons (x : String) (t : List String) :
    (x :: t).flatMap (fun url => ["&", url]) = "&" :: (x :: t).intersperse "&" := by
  induction t generalizing x with
  | nil => rfl
  | cons y t ih =>
    show "&" :: x :: (y :: t).flatMap (fun url => ["&", url]) = _
    rw [ih y]
    rfl

lemma flatMap_amp_tail (l : List String) :
    (l.flatMap (fun url => ["&", url])).tail = l.intersperse "&" := by
  cases l with
  | nil => rfl
  | cons x t => rw [flatMap_amp_cons x t]; rfl

/-- C8: for settings with the cluster flag off, the connection URI built by
pool instantiation is exactly the standalone form
redis scheme, host, colon, port, slash, partition. -/
theorem standalone_connection_url (conf : RedisSettings)
    (h : conf.cluster_enabled = false) :
    RedisConnectionPool.connection_url conf =
      "redis://" ++ conf.host ++ ":" ++ toString conf.port ++ "/" ++
        toString conf.partition := by
  simp [RedisConnectionPool.connection_url, h]

/-- C8 witness: the default settings have the cluster flag off and resolve to
the expected standalone URI. -/
theorem standalone_connection_url_witness :
    RedisSettings.default.cluster_enabled = false ∧
    RedisConnectionPool.connection_url RedisSettings.default = "redis://localhost:6379/0" :=
  ⟨rfl, (standalone_connection_url RedisSettings.default rfl).trans (by decide)⟩

/-- C2 counterexample: with cluster node list a, b, c the resolver yields the
query string a, ampersand, b, ampersand, c with no node= prefixes, so the
claimed URI with node=a, node=b, node=c parameters is not produced. -/
theorem cluster_connection_url_counterexample :
    RedisConnectionPool.connection_url clusterSettingsABC = "redis-cluster://h:1?a&b&c" ∧
    RedisConnectionPool.connection_url clusterSettingsABC ≠
      "redis-cluster://h:1?node=a&node=b&node=c" := by
  constructor <;> decide

/-- C2 (amended): with the cluster flag on, the connection URI is the cluster
scheme with host and port, a question mark, and then the configured node
entries joined by single ampersands in order, with no leading separator; the
resolver adds no node= prefix of its own, so node parameters appear only as
written in the configured entries. -/
theorem cluster_connection_url_amended (conf : RedisSettings)
    (h : conf.cluster_enabled = true) :
    RedisConnectionPool.connection_url conf =
      "redis-cluster://" ++ conf.host ++ ":" ++ toString conf.port ++ "?" ++
        String.join (conf.cluster_urls.intersperse "&") := by
  simp [RedisConnectionPool.connection_url, h, flatMap_amp_tail]

/-- C2 witness: the amended cluster URI shape evaluated on the concrete node
list a, b, c. -/
theorem cluster_connection_url_amended_witness :
    clusterSettingsABC.cluster_enabled = true ∧
    RedisConnectionPool.connection_url clusterSettingsABC =
      "redis-cluster://" ++ clusterSettingsABC.host ++ ":" ++
        toString clusterSettingsABC.port ++ "?" ++
        String.join (clusterSettingsABC.cluster_urls.intersperse "&") :=
  ⟨rfl, cluster_connection_url_amended clusterSettingsABC rfl⟩

/-- C9: the driver configuration built by pool instantiation forces RESP3
whenever the legacy flag is off and keeps the parsed version when it is on,
enables tracing, sets blocking commands to error, and the reconnect policy is
the constant policy on exactly the configured attempt bound and delay. -/
theorem instantiate_config_fields :
    ∀ (parsed : RedisConfig) (conf : RedisSettings),
      (RedisConnectionPool.build_config parsed conf).version =
          (if conf.use_legacy_version then parsed.version else RespVersion.RESP3) ∧
      (RedisConnectionPool.build_config parsed conf).tracing = TracingConfig.new true ∧
      (RedisConnectionPool.build_config parsed conf).blocking = Blocking.Error ∧
      RedisConnectionPool.reconnect_policy conf =
          { kind := ReconnectKind.constant
            max_attempts := conf.reconnect_max_attempts
            delay := conf.reconnect_delay } := by
  intro parsed conf
  refine ⟨?_, rfl, rfl, rfl⟩
  cases h : conf.use_legacy_version <;>
    simp [RedisConnectionPool.build_config, h]

/-- C10: the configuration-building code of the single client and of the
pool compute the same connection URL, the same configuration mutations, the
same reconnect policy, and hence the same overall configuration result for
any driver URL parser. -/
theorem get_config_instantiate_equivalent :
    ∀ (parse : String → Except String RedisConfig) (conf : RedisSettings)
      (parsed : RedisConfig),
      RedisClient.connection_url conf = RedisConnectionPool.connection_url conf ∧
      RedisClient.build_config parsed conf = RedisConnectionPool.build_config parsed conf ∧
      RedisClient.reconnect_policy conf = RedisConnectionPool.reconnect_policy conf ∧
      RedisClient.get_config parse conf = RedisConnectionPool.instantiate_config parse conf :=
  fun _ _ _ => ⟨rfl, rfl, rfl, rfl⟩

/-- Connect oracle that succeeds everywhere except on the host named replica,
where it fails with a connection-refused text. -/
def connectFailsOnReplicaHost : RedisSettings → Except String (Nat × List Nat) :=
  fun s => if s.host = "replica" then .error "connection refused" else .ok (0, [1])

/-- Writer settings used by the construction-failure scenario. -/
def writerSettings : RedisSettings := RedisSettings.default

/-- Replica settings pointing at the unreachable replica host. -/
def replicaSettings : RedisSettings := { RedisSettings.default with host := "replica" }

/-- C1 counterexample: with a writer endpoint that instantiates fine and a
replica endpoint that fails, construction returns the connection error, but
the trace of the constructor contains no quit of the writer pool: the
already-built writer pool is not torn down, contrary to the claim. -/
theorem new_replica_failure_counterexample :
    (RedisConnectionPool.new connectFailsOnReplicaHost writerSettings
        (some replicaSettings)).1 =
      .error (RedisError.RedisConnectionError "connection refused") ∧
    PoolEvent.quitWriter ∉
      (RedisConnectionPool.new connectFailsOnReplicaHost writerSettings
        (some replicaSettings)).2 :=
  ⟨rfl, by decide⟩

/-- C1 (amended): for every connect behaviour under which the writer settings
instantiate successfully and the replica settings fail, construction returns
the connection error carrying the replica failure text, but performs no
teardown of the writer pool: the only actions in its trace are the two
instantiate calls, and in particular no quit of the writer pool occurs, so
the writer pool is merely dropped without its connections being closed. -/
theorem new_replica_failure_no_writer_teardown
    (connect : RedisSettings → Except String (Nat × List Nat))
    (conf replica : RedisSettings) (p : Nat) (hs : List Nat) (e : String)
    (hw : connect conf = .ok (p, hs)) (hr : connect replica = .error e) :
    (RedisConnectionPool.new connect conf (some replica)).1 =
      .error (RedisError.RedisConnectionError e) ∧
    (RedisConnectionPool.new connect conf (some replica)).2 =
      [PoolEvent.instantiateCall, PoolEvent.instantiateCall] ∧
    PoolEvent.quitWriter ∉ (RedisConnectionPool.new connect conf (some replica)).2 := by
  simp [RedisConnectionPool.new, RedisConnectionPool.instantiate, hw, hr]

/-- C1 witness: the amended construction-failure behaviour evaluated on the
concrete unreachable-replica scenario. -/
theorem new_replica_failure_no_writer_teardown_witness :
    (RedisConnectionPool.new connectFailsOnReplicaHost writerSettings
        (some replicaSettings)).1 =
      .error (RedisError.RedisConnectionError "connection refused") ∧
    (RedisConnectionPool.new connectFailsOnReplicaHost writerSettings
        (some replicaSettings)).2 =
      [PoolEvent.instantiateCall, PoolEvent.instantiateCall] ∧
    PoolEvent.quitWriter ∉
      (RedisConnectionPool.new connectFailsOnReplicaHost writerSettings
        (some replicaSettings)).2 :=
  new_replica_failure_no_writer_teardown connectFailsOnReplicaHost writerSettings
    replicaSettings 0 [1] "connection refused" rfl rfl

lemma awaitHandle_mem_drainHandles (join : Nat → JoinOutcome) (l : List Nat) (h : Nat)
    (hm : h ∈ l) : PoolEvent.awaitHandle h ∈ drainHandles join l := by
  induction l with
  | nil => cases hm
  | cons x rest ih =>
    rcases List.mem_cons.mp hm with rfl | hm
    · exact List.mem_cons_self _ _
    · exact List.mem_cons_of_mem _ (List.mem_append_right _ (ih hm))

lemma logError_mem_drainHandles (join : Nat → JoinOutcome) (l : List Nat) (h : Nat)
    (e : String) (hm : h ∈ l)
    (hj : join h = JoinOutcome.okErr e ∨ join h = JoinOutcome.joinErr e) :
    PoolEvent.logError e ∈ drainHandles join l := by
  induction l with
  | nil => cases hm
  | cons x rest ih =>
    rcases List.mem_cons.mp hm with rfl | hm
    · refine List.mem_cons_of_mem _ (List.mem_append_left _ ?_)
      rcases hj with hj | hj <;> simp [hj]
    · exact List.mem_cons_of_mem _ (List.mem_append_right _ (ih hm))

/-- C7: closing the pool first quits the writer pool, then the reader pool;
every recorded join handle is awaited and any join failure is logged; the
handle list is drained; and a second call straight after performs only the
two quits, so calling twice in a row terminates and performs no further
awaits. The function is total and returns no error value, so it cannot panic
or propagate a failure. -/
theorem close_connections_spec (join : Nat → JoinOutcome) (s : RedisConnectionPool) :
    ((RedisConnectionPool.close_connections join s).2).take 2 =
        [PoolEvent.quitWriter, PoolEvent.quitReader] ∧
    (∀ h, h ∈ s.join_handles →
        PoolEvent.awaitHandle h ∈ (RedisConnectionPool.close_connections join s).2) ∧
    (∀ h e, h ∈ s.join_handles →
        (join h = JoinOutcome.okErr e ∨ join h = JoinOutcome.joinErr e) →
        PoolEvent.logError e ∈ (RedisConnectionPool.close_connections join s).2) ∧
    ((RedisConnectionPool.close_connections join s).1).join_handles = [] ∧
    (RedisConnectionPool.close_connections join
        ((RedisConnectionPool.close_connections join s).1)).2 =
      [PoolEvent.quitWriter, PoolEvent.quitReader] := by
  refine ⟨rfl, ?_, ?_, rfl, rfl⟩
  · intro h hm
    exact List.mem_cons_of_mem _ (List.mem_cons_of_mem _
      (awaitHandle_mem_drainHandles join s.join_handles h hm))
  · intro h e hm hj
    exact List.mem_cons_of_mem _ (List.mem_cons_of_mem _
      (logError_mem_drainHandles join s.join_handles h e hm hj))

/-- Join behaviour used by the shutdown witness: handle 2 fails to join, the
others join cleanly. -/
def joinFailsOnTwo : Nat → JoinOutcome :=
  fun h => if h = 2 then JoinOutcome.joinErr "join failed" else JoinOutcome.okOk

/-- Pool state used by the shutdown witness. -/
def poolStateTwoHandles : RedisConnectionPool := ⟨0, 1, [2, 3]⟩

/-- C7 witness: the shutdown behaviour evaluated on a concrete pool with two
recorded handles, one of which fails to join. -/
theorem close_connections_spec_witness :
    PoolEvent.awaitHandle 2 ∈
      (RedisConnectionPool.close_connections joinFailsOnTwo poolStateTwoHandles).2 ∧
    PoolEvent.logError "join failed" ∈
      (RedisConnectionPool.close_connections joinFailsOnTwo poolStateTwoHandles).2 ∧
    ((RedisConnectionPool.close_connections joinFailsOnTwo poolStateTwoHandles).1).join_handles
      = [] :=
  ⟨(close_connections_spec joinFailsOnTwo poolStateTwoHandles).2.1 2 (by decide),
   (close_connections_spec joinFailsOnTwo poolStateTwoHandles).2.2.1 2 "join failed"
     (by decide) (Or.inr (by decide)),
   (close_connections_spec joinFailsOnTwo poolStateTwoHandles).2.2.2.1⟩

lemma availabilityStep_false (e : MonitorEvent) : availabilityStep false e = false := by
  cases e <;> rfl

lemma foldl_availabilityStep_false (l : List MonitorEvent) :
    l.foldl availabilityStep false = false := by
  induction l with
  | nil => rfl
  | cons e rest ih => rw [List.foldl_cons, availabilityStep_false]; exact ih

lemma foldl_availabilityStep_disconnect (l : List MonitorEvent) (b : Bool)
    (hm : MonitorEvent.disconnectObserved ∈ l) : l.foldl availabilityStep b = false := by
  induction l generalizing b with
  | nil => cases hm
  | cons e rest ih =>
    rcases List.mem_cons.mp hm with rfl | hm
    · rw [List.foldl_cons]
      show rest.foldl availabilityStep false = false
      exact foldl_availabilityStep_false rest
    · exact ih (availabilityStep b e) hm

/-- C3: the availability flag is initialized true at pool construction, the
monitor step on an observed disconnection stores false, no monitor step ever
turns a false flag back to true, any event sequence containing an observed
disconnection leaves the flag false on a subsequent read, and once the flag
reads false it stays false under any further events. -/
theorem availability_flag_spec :
    availabilityInit = true ∧
    (∀ f : Bool, availabilityStep f MonitorEvent.disconnectObserved = false) ∧
    (∀ e : MonitorEvent, availabilityStep false e = false) ∧
    (∀ events : List MonitorEvent, MonitorEvent.disconnectObserved ∈ events →
        availabilityAfter events = false) ∧
    (∀ events more : List MonitorEvent, availabilityAfter events = false →
        availabilityAfter (events ++ more) = false) := by
  refine ⟨rfl, fun f => rfl, availabilityStep_false, ?_, ?_⟩
  · intro events hm
    exact foldl_availabilityStep_disconnect events availabilityInit hm
  · intro events more h
    unfold availabilityAfter at h ⊢
    rw [List.foldl_append, h]
    exact foldl_availabilityStep_false more

/-- C3 witness: after the monitor logs one transport error and then observes
the pools disconnected, the availability read returns false. -/
theorem availability_flag_spec_witness :
    MonitorEvent.disconnectObserved ∈
      [MonitorEvent.errorSeen "io error", MonitorEvent.disconnectObserved] ∧
    availabilityAfter
      [MonitorEvent.errorSeen "io error", MonitorEvent.disconnectObserved] = false :=
  ⟨by decide,
   availability_flag_spec.2.2.2.1
     [MonitorEvent.errorSeen "io error", MonitorEvent.disconnectObserved] (by decide)⟩

/-- C4: with the consumer holding its receive handle, the typed relay forwards
exactly, and in the order received, one tuple of channel name, decoded value
and receipt timestamp for each message whose payload is a string the decoder
accepts; receive errors, undecodable strings, null payloads and other payload
shapes contribute nothing, and a dropped message never suppresses the tuples
of later well-formed messages. -/
theorem relay_forwarded_exactly_decoded :
    ∀ (T : Type) (decode : String → Option T) (events : List (RecvEvent × Nat)),
      relayRun decode true events =
        events.filterMap (fun p =>
          match p.1 with
          | RecvEvent.msg m =>
            match m.value with
            | RedisValue.String s => (decode s).map (fun v => (m.channel, v, p.2))
            | _ => none
          | _ => none) := by
  intro T decode events
  induction events with
  | nil => rfl
  | cons p rest ih =>
    obtain ⟨e, t⟩ := p
    cases e with
    | errClosed => simpa [relayRun, relayStep] using ih
    | errLagged n => simpa [relayRun, relayStep] using ih
    | msg m =>
      cases hv : m.value with
      | String s =>
        cases hd : decode s with
        | none => simp [relayRun, relayStep, hv, hd, ih]
        | some v => simp [relayRun, relayStep, hv, hd, ih]
      | Null => simp [relayRun, relayStep, hv, ih]
      | Other => simp [relayRun, relayStep, hv, ih]

/-- C5 counterexample: when the underlying stream closes, the relay step
observes the closed-stream receive error, logs it and continues; it does not
break out of the loop, so even stream closure does not end the loop. -/
theorem relay_closed_stream_counterexample :
    (relayStep (fun s => some s) true RecvEvent.errClosed 0).control ≠ LoopControl.brk ∧
    (relayStep (fun s => some s) true RecvEvent.errClosed 0).logs = [LogEntry.recvError] := by
  constructor <;> decide

/-- C5 (amended): no single event ever terminates the relay loop: a
transport-level receive error, closure of the stream included, is logged and
the loop continues, and a failed forward because the consumer dropped its
receive handle is logged and the loop continues; the loop body has no
terminating branch at all, so not even stream closure ends it — it is
surfaced as a receive error on every subsequent iteration. -/
theorem relay_step_never_terminates :
    ∀ (T : Type) (decode : String → Option T) (txAlive : Bool) (e : RecvEvent) (now : Nat),
      (relayStep decode txAlive e now).control = LoopControl.cont ∧
      ((e = RecvEvent.errClosed ∨ ∃ n, e = RecvEvent.errLagged n) →
        (relayStep decode txAlive e now).logs = [LogEntry.recvError]) ∧
      (∀ m s v, e = RecvEvent.msg m → m.value = RedisValue.String s →
        decode s = some v → txAlive = false →
        (relayStep decode txAlive e now).logs = [LogEntry.sendFailed] ∧
        (relayStep decode txAlive e now).forwarded = []) := by
  intro T decode txAlive e now
  refine ⟨?_, ?_, ?_⟩
  · cases e with
    | errClosed => rfl
    | errLagged n => rfl
    | msg m =>
      cases hv : m.value with
      | String s =>
        cases hd : decode s with
        | none => simp [relayStep, hv, hd]
        | some v => cases txAlive <;> simp [relayStep, hv, hd]
      | Null => simp [relayStep, hv]
      | Other => simp [relayStep, hv]
  · rintro (rfl | ⟨n, rfl⟩) <;> rfl
  · rintro m s v rfl hv hd rfl
    simp [relayStep, hv, hd]

/-- C5 witness: the never-terminating relay step evaluated at the
closed-stream event and at a decodable message whose consumer has dropped the
receive handle. -/
theorem relay_step_never_terminates_witness :
    (relayStep (fun s => some s) false RecvEvent.errClosed 0).control = LoopControl.cont ∧
    (relayStep (fun s => some s) false RecvEvent.errClosed 0).logs = [LogEntry.recvError] ∧
    (relayStep (fun s => some s) false (RecvEvent.msg ⟨"orders", RedisValue.String "x"⟩) 0).logs
      = [LogEntry.sendFailed] :=
  ⟨(relay_step_never_terminates String (fun s => some s) false RecvEvent.errClosed 0).1,
   (relay_step_never_terminates String (fun s => some s) false
      RecvEvent.errClosed 0).2.1 (Or.inl rfl),
   ((relay_step_never_terminates String (fun s => some s) false
      (RecvEvent.msg ⟨"orders", RedisValue.String "x"⟩) 0).2.2
      ⟨"orders", RedisValue.String "x"⟩ "x" "x" rfl rfl rfl rfl).1⟩

/-- C6: both subscribe functions return successfully exactly when the
underlying subscribe command succeeds; on a failed subscribe the returned
error is the formatted message carrying the channel name and the underlying
error text, no receive handle is returned and no relay task is spawned; on a
successful subscribe the relay task is spawned and the handle returned. -/
theorem subscribe_channel_error_iff :
    ∀ (subR : Except String Unit) (channel : String),
      ((RedisConnectionPool.subscribe_channel subR channel).1.isOk = subR.isOk) ∧
      ((RedisConnectionPool.subscribe_channel_as_str subR channel).1.isOk = subR.isOk) ∧
      (∀ e, subR = .error e →
        (RedisConnectionPool.subscribe_channel subR channel).1 =
          .error (RedisError.GetFailed (subscribeErrorMessage channel e)) ∧
        (RedisConnectionPool.subscribe_channel subR channel).2 = false ∧
        (RedisConnectionPool.subscribe_channel_as_str subR channel).1 =
          .error (RedisError.GetFailed (subscribeErrorMessage channel e)) ∧
        (RedisConnectionPool.subscribe_channel_as_str subR channel).2 = false) ∧
      (∀ u, subR = .ok u →
        (RedisConnectionPool.subscribe_channel subR channel).2 = true ∧
        (RedisConnectionPool.subscribe_channel_as_str subR channel).2 = true) := by
  intro subR channel
  cases subR with
  | error e =>
    refine ⟨rfl, rfl, ?_, ?_⟩
    · rintro e' he
      cases he
      exact ⟨rfl, rfl, rfl, rfl⟩
    · rintro u hu
      cases hu
  | ok u =>
    refine ⟨rfl, rfl, ?_, ?_⟩
    · rintro e' he
      cases he
    · rintro u' hu
      exact ⟨rfl, rfl⟩

/-- C6 witness: a failed subscribe on the orders channel evaluated concretely;
the error carries the channel name and the driver error text, and no relay is
spawned. -/
theorem subscribe_channel_error_iff_witness :
    (RedisConnectionPool.subscribe_channel (.error "boom") "orders").1 =
      .error (RedisError.GetFailed (subscribeErrorMessage "orders" "boom")) ∧
    (RedisConnectionPool.subscribe_channel (.error "boom") "orders").2 = false ∧
    (RedisConnectionPool.subscribe_channel_as_str (.error "boom") "orders").2 = false :=
  ⟨((subscribe_channel_error_iff (.error "boom") "orders").2.2.1 "boom" rfl).1,
   ((subscribe_channel_error_iff (.error "boom") "orders").2.2.1 "boom" rfl).2.1,
   ((subscribe_channel_error_iff (.error "boom") "orders").2.2.1 "boom" rfl).2.2.2⟩

end Redis
